import Mathlib

/-!
Verification of the natural-language transaction parsing core of the
cashmate repository (`src/services/nlp_processor.py`, class
`GeminiTransactionParser`).  The Python code is shallowly embedded: strings
are `List Char`, Python dictionaries are association lists with string keys,
Python float amounts are exact decimals `man * 10 ^ (-exp)` (the program only
multiplies parsed decimal literals by 10^3 / 10^6 and compares against zero,
operations on which binary floating point and exact decimals agree at the
magnitudes the parser handles), and the Gemini oracle is an explicit
parameter: `none` models any model-path failure (network error, empty
response, malformed JSON), `some d` models a response that parsed to the
dictionary `d`.
-/

deriving instance DecidableEq for Except

namespace Cashmate

/-! ### Characters and Python string primitives -/

/-- Lowercasing of one character, as Python `str.lower` acts on ASCII. -/
def lowerChar (c : Char) : Char :=
  if 'A' ≤ c ∧ c ≤ 'Z' then Char.ofNat (c.toNat + 32) else c

/-- Python `str.lower` (the parser's inputs are ASCII). -/
def pyLower (s : List Char) : List Char :=
  s.map lowerChar

/-- ASCII whitespace, the characters relevant to Python `str.strip`,
`str.split` and the regex class `\s` on the parser's inputs. -/
def isSpaceB (c : Char) : Bool :=
  c = ' ' ∨ c = '\t' ∨ c = '\n' ∨ c = '\r'

/-- ASCII digit test, the regex class `\d` on the parser's inputs. -/
def isDigitB (c : Char) : Bool :=
  '0' ≤ c ∧ c ≤ '9'

/-- Python `str.strip()`: remove leading and trailing whitespace. -/
def pyStrip (s : List Char) : List Char :=
  (s.dropWhile isSpaceB).rdropWhile isSpaceB

/-- Python `str.split()` with no separator: split on whitespace runs and
drop empty fields. -/
def splitWs (s : List Char) : List (List Char) :=
  (s.splitOnP isSpaceB).filter (fun w => ¬ w = [])

/-- Python substring containment `needle in haystack`. -/
def containsSub (needle haystack : List Char) : Bool :=
  needle <:+: haystack

/-- Python `any(kw in text for kw in kws)`. -/
def hasAnyKw (kws : List (List Char)) (text : List Char) : Bool :=
  kws.any (fun k => containsSub k text)

/-! ### Decimal numbers (Python floats)

The parser stores amounts as Python floats obtained from `float()` on short
decimal literals and multiplies them by 1000 / 1000000.  We embed them as
exact decimals; on such values IEEE doubles and exact decimals produce the
same comparisons and the same results for the operations the code performs. -/

/-- An exact decimal number `man * 10 ^ (-exp)`, embedding the Python float
values the parser manipulates. -/
structure Dec where
  man : Int
  exp : Nat
deriving DecidableEq

/-- The decimal value of a natural number literal. -/
def Dec.ofNat (n : Nat) : Dec :=
  ⟨n, 0⟩

/-- Multiplication by a natural constant (`amount *= 1000000` etc.). -/
def Dec.mulNat (d : Dec) (n : Nat) : Dec :=
  ⟨d.man * n, d.exp⟩

/-- Value-level order `a ≤ b` by cross multiplication. -/
def Dec.leB (a b : Dec) : Bool :=
  a.man * (10 : Int) ^ b.exp ≤ b.man * (10 : Int) ^ a.exp

/-- Value-level strict order `a < b` by cross multiplication. -/
def Dec.ltB (a b : Dec) : Bool :=
  a.man * (10 : Int) ^ b.exp < b.man * (10 : Int) ^ a.exp

/-- Value-level equality (`15000.0 == 15000`) by cross multiplication. -/
def Dec.eqv (a b : Dec) : Bool :=
  a.man * (10 : Int) ^ b.exp = b.man * (10 : Int) ^ a.exp

/-- Numeric value of a digit character. -/
def digitVal (c : Char) : Nat :=
  c.toNat - 48

/-- The natural number denoted by a list of decimal digit characters. -/
def natOfDigits (ds : List Char) : Nat :=
  ds.foldl (fun a c => 10 * a + digitVal c) 0

/-- The decimal denoted by an integer digit run `ds` and a (possibly empty)
fractional digit run `fds`, as `float()` reads the regex group
`\d+(?:\.\d+)?`. -/
def litVal (ds fds : List Char) : Dec :=
  ⟨natOfDigits ds * 10 ^ fds.length + natOfDigits fds, fds.length⟩

/-! ### The amount regexes

`_parse_with_fallback` (nlp_processor.py lines 372-394) searches, in order,
`(\d+(?:\.\d+)?)\s*jt`, `(\d+(?:\.\d+)?)\s*rb`, `(\d+(?:\.\d+)?)\s*k` and
`(\d+(?:\.\d+)?)` with `re.search`, i.e. leftmost match.  `matchAt`
decides whether one pattern matches at a fixed start position: the group is
the maximal digit run plus a maximal fractional part when present (greedy
matching; a shorter digit run can never help, because the alternatives
after the group - `\s*` and a letter suffix - reject a digit, and dropping
a present fractional part can never help for the letter suffixes because
`.` is neither whitespace nor `j`/`r`/`k`; both backtracking retries are
nevertheless included verbatim). -/

/-- Match `(\d+(?:\.\d+)?)\s*suf` at the start of `l`, returning the
group's value. -/
def matchAt (suf : List Char) (l : List Char) : Option Dec :=
  let ds := l.takeWhile isDigitB
  if ds = [] then none
  else
    let rest := l.drop ds.length
    let noFrac : Option Dec :=
      if suf.isPrefixOf (rest.dropWhile isSpaceB) then some (litVal ds []) else none
    match rest with
    | '.' :: r =>
      let fds := r.takeWhile isDigitB
      if fds = [] then noFrac
      else
        let rest2 := (r.drop fds.length).dropWhile isSpaceB
        if suf.isPrefixOf rest2 then some (litVal ds fds) else noFrac
    | _ => noFrac

/-- Leftmost regex match (`re.search`) of `(\d+(?:\.\d+)?)\s*suf`. -/
def searchNum (suf : List Char) : List Char → Option Dec
  | [] => none
  | c :: t =>
    match matchAt suf (c :: t) with
    | some d => some d
    | none => searchNum suf t

/-- The unit multiplier the loop body applies: it tests `jt` / `rb` / `k`
as substrings of the whole lowercased input, not of the matched pattern. -/
def unitFactor (lower : List Char) : Nat :=
  if containsSub ("jt".toList) lower then 1000000
  else if containsSub ("rb".toList) lower then 1000
  else if containsSub ("k".toList) lower then 1000
  else 1

/-- The amount-extraction loop of `_parse_with_fallback`: the four patterns
in priority order, first match wins, then the multiplier chain. -/
def extractNominal (lower : List Char) : Option Dec :=
  match searchNum ("jt".toList) lower with
  | some lit => some (lit.mulNat (unitFactor lower))
  | none =>
    match searchNum ("rb".toList) lower with
    | some lit => some (lit.mulNat (unitFactor lower))
    | none =>
      match searchNum ("k".toList) lower with
      | some lit => some (lit.mulNat (unitFactor lower))
      | none =>
        match searchNum [] lower with
        | some lit => some (lit.mulNat (unitFactor lower))
        | none => none

/-! ### Python values and dictionaries -/

/-- Digits of a natural number, via fuel-based structural recursion so that
the kernel can evaluate it. -/
def natDigitsGo : Nat → Nat → List Char → List Char
  | 0, _, acc => acc
  | fuel + 1, n, acc =>
    if n < 10 then Char.ofNat (48 + n) :: acc
    else natDigitsGo fuel (n / 10) (Char.ofNat (48 + n % 10) :: acc)

/-- Decimal digits of a natural number. -/
def natDigits (n : Nat) : List Char :=
  natDigitsGo (n + 1) n []

/-- Python `str()` of a float value.  Exact for the terminating decimals a
`Dec` denotes (Python's shortest-roundtrip float repr prints exactly these
digits for the values the parser produces); integral values render with a
trailing `".0"` as in Python. -/
def floatRepr (d : Dec) : List Char :=
  let a := d.man.natAbs
  let ip := natDigits (a / 10 ^ d.exp)
  let fpDigits := natDigits (a % 10 ^ d.exp)
  let padded := List.replicate (d.exp - fpDigits.length) '0' ++ fpDigits
  let fds := padded.rdropWhile (fun c => c = '0')
  (if d.man < 0 then ['-'] else []) ++ ip ++ '.' :: (if fds = [] then ['0'] else fds)

/-- Python `float()` applied to a string: strip whitespace, optional sign,
plain decimal literal.  (Exponent, `inf`/`nan` and underscore forms are
omitted; the parser never produces them.) -/
def pyFloat (s : List Char) : Option Dec :=
  let t := pyStrip s
  let neg : Bool := match t with | '-' :: _ => true | _ => false
  let u := match t with
    | '-' :: r => r
    | '+' :: r => r
    | _ => t
  let ds := u.takeWhile isDigitB
  let rest := u.drop ds.length
  let core : Option Dec :=
    match rest with
    | [] => if ds = [] then none else some (litVal ds [])
    | '.' :: r =>
      let fds := r.takeWhile isDigitB
      if ¬ (r.drop fds.length) = [] then none
      else if ds = [] ∧ fds = [] then none
      else some (litVal ds fds)
    | _ => none
  core.map (fun d => if neg then ⟨-d.man, d.exp⟩ else d)

/-- A Python dictionary value as the parser sees them: a string or a number. -/
inductive Val where
  | vstr (s : List Char)
  | vnum (q : Dec)
deriving DecidableEq

/-- A Python dictionary with string keys (keys are unique in every dict the
program builds; lookup takes the first binding). -/
abbrev Dict := List (List Char × Val)

/-- Python `d.get(k)` (`None` when absent). -/
def dget (d : Dict) (k : List Char) : Option Val :=
  (d.find? (fun p => p.1 = k)).map (fun p => p.2)

/-- Python `d.get(k, default)`. -/
def dgetD (d : Dict) (k : List Char) (v : Val) : Val :=
  (dget d k).getD v

/-- Python `k in d`. -/
def dhas (d : Dict) (k : List Char) : Bool :=
  (dget d k).isSome

/-- Python `list(d.keys())`. -/
def dkeys (d : Dict) : List (List Char) :=
  d.map (fun p => p.1)

/-- Python `str()` of a dictionary value. -/
def pyStr : Val → List Char
  | .vstr s => s
  | .vnum q => floatRepr q

/-- Python `.lower()` on a dictionary value: fails (AttributeError) on a
number. -/
def valLower : Val → Option (List Char)
  | .vstr s => some (pyLower s)
  | .vnum _ => none

/-- Python `float()` on a dictionary value: identity on numbers, string
parsing on strings (ValueError/TypeError becomes `none`). -/
def toFloat : Val → Option Dec
  | .vnum q => some q
  | .vstr s => pyFloat s

/-! ### String and key constants of the parser -/

/-- Convert a list of string literals to keyword lists. -/
def strs (l : List String) : List (List Char) :=
  l.map (fun s => s.toList)

def kTipe : List Char := "tipe".toList
def kNominal : List Char := "nominal".toList
def kAkun : List Char := "akun".toList
def kKategori : List Char := "kategori".toList
def kCatatan : List Char := "catatan".toList
def kAkunAsal : List Char := "akun_asal".toList
def kAkunTujuan : List Char := "akun_tujuan".toList

def sTransfer : List Char := "transfer".toList
def sPemasukan : List Char := "pemasukan".toList
def sPengeluaran : List Char := "pengeluaran".toList
def sCash : List Char := "cash".toList
def sLainnya : List Char := "lainnya".toList
def sGaji : List Char := "gaji".toList
def sMakanan : List Char := "makanan".toList
def sTransportasi : List Char := "transportasi".toList
def sBelanja : List Char := "belanja".toList
def sHiburan : List Char := "hiburan".toList
def sTransaksi : List Char := "Transaksi".toList

/-! ### The validator (`_validate_transaction_data`, lines 412-475) -/

/-- Restriction of a lowercased type string to the three labels, with
expense as the default (lines 426-427). -/
def tipeNorm (t : List Char) : List Char :=
  if t = sPemasukan ∨ t = sPengeluaran ∨ t = sTransfer then t else sPengeluaran

/-- The type coercion at the head of `_validate_transaction_data`:
`str(data.get('tipe', '')).lower()`, restricted to the three labels with
expense as the default. -/
def coerceTipe (data : Dict) : List Char :=
  tipeNorm (pyLower (pyStr (dgetD data kTipe (Val.vstr []))))

/-- Embedding of `_validate_transaction_data`; `none` models the raised
ValueError. -/
def validate_transaction_data (data : Dict) : Option Dict :=
  let tipe := coerceTipe data
  match toFloat (dgetD data kNominal (Val.vnum (Dec.ofNat 0))) with
  | none => none
  | some nominal =>
    if nominal.leB (Dec.ofNat 0) then none
    else if tipe = sTransfer then
      let asal0 := pyStrip (pyStr (dgetD data kAkunAsal (Val.vstr sCash)))
      let asal := if asal0 = [] then sCash else asal0
      let tujuan0 := pyStrip (pyStr (dgetD data kAkunTujuan (Val.vstr sCash)))
      let tujuan := if tujuan0 = [] then sCash else tujuan0
      let cat0 := pyStrip (pyStr (dgetD data kCatatan (Val.vstr [])))
      let catatan := if cat0 = [] then sTransaksi else cat0
      some [(kTipe, .vstr tipe), (kNominal, .vnum nominal), (kAkunAsal, .vstr asal),
        (kAkunTujuan, .vstr tujuan), (kKategori, .vstr sTransfer), (kCatatan, .vstr catatan)]
    else
      let akun0 := pyStrip (pyStr (dgetD data kAkun (Val.vstr sCash)))
      let akun := if akun0 = [] then sCash else akun0
      let kat0 := pyStrip (pyStr (dgetD data kKategori (Val.vstr sLainnya)))
      let kategori := if kat0 = [] then sLainnya else kat0
      let cat0 := pyStrip (pyStr (dgetD data kCatatan (Val.vstr [])))
      let catatan := if cat0 = [] then sTransaksi else cat0
      some [(kTipe, .vstr tipe), (kNominal, .vnum nominal), (kAkun, .vstr akun),
        (kKategori, .vstr kategori), (kCatatan, .vstr catatan)]

/-! ### Keyword tables (nlp_processor.py, verbatim from the source) -/

/-- Transfer triggers of the fallback path (line 222). -/
def fbTransferKws : List (List Char) :=
  strs ["transfer", "pindah", "tarik tunai", "tarik", "ambil", "kirim", "dari", "ke",
    "topup", "top up", "isi", "isi saldo"]

/-- Withdrawal triggers of the fallback path (line 223). -/
def withdrawalKws : List (List Char) :=
  strs ["tarik tunai", "ambil tunai", "tarik", "ambil"]

/-- Top-up triggers of the fallback path (line 224). -/
def topupKws : List (List Char) :=
  strs ["topup", "top up", "isi", "isi saldo"]

/-- Income triggers (line 318). -/
def incomeKws : List (List Char) :=
  strs ["gaji", "salary", "bonus", "terima", "dapat", "penghasilan", "pendapatan", "insentif"]

/-- Transfer triggers of the AI cross-check (line 171). -/
def aiTransferKws : List (List Char) :=
  strs ["transfer", "pindah", "tarik tunai", "ambil tunai", "dari", "ke",
    "topup", "top up", "isi", "isi saldo"]

/-- Withdrawal triggers of the AI cross-check (line 172). -/
def aiWithdrawalKws : List (List Char) :=
  strs ["tarik tunai", "ambil tunai"]

/-- Top-up triggers of the AI cross-check (line 173). -/
def aiTopupKws : List (List Char) :=
  strs ["topup", "top up", "isi", "isi saldo"]

/-- Food category triggers (lines 325-332). -/
def foodKws : List (List Char) :=
  strs ["makan", "kopi", "nasi", "ayam", "ikan", "daging", "sayur", "buah", "jus", "minum",
    "bakso", "mie", "soto", "rawon", "gulai", "rendang", "gudeg", "pecel", "karedok",
    "dimsum", "pizza", "burger", "kentang", "goreng", "bakar", "kukus", "rebus",
    "roti", "kue", "donat", "martabak", "pancake", "waffle", "es", "jus", "soda",
    "lawson", "indomaret", "alfamart", "familymart", "circle k", "shell select",
    "restoran", "warung", "cafe", "kedai", "kantin", "food court", "foodcourt"]

/-- Transport category triggers (lines 334-338). -/
def transportKws : List (List Char) :=
  strs ["gojek", "grab", "uber", "taxi", "ojek", "angkot", "bus", "kereta", "pesawat",
    "bensin", "pertamax", "pertalite", "solar", "parkir", "tol", "tiket", "terminal",
    "stasiun", "bandara", "transport", "perjalanan", "jalan", "naik", "turun"]

/-- Shopping category triggers (lines 340-346). -/
def shoppingKws : List (List Char) :=
  strs ["beli", "belanja", "shop", "mall", "supermarket", "minimarket", "pasar",
    "toko", "warung", "kios", "baju", "celana", "sepatu", "tas", "topi",
    "elektronik", "handphone", "laptop", "charger", "kabel", "baterai",
    "kosmetik", "sabun", "shampoo", "sampo", "cream", "parfum", "skincare",
    "shopee", "tokopedia", "bukalapak", "lazada", "blibli", "jd.id", "zalora"]

/-- Entertainment category triggers (lines 348-352). -/
def entertainmentKws : List (List Char) :=
  strs ["nonton", "bioskop", "film", "konser", "musik", "game", "gaming", "main",
    "hiburan", "entertainment", "rekreasi", "liburan", "wisata", "hotel",
    "penginapan", "villa", "resort", "travel", "tour", "tiket wisata"]

/-- Transfer-related words `_detect_account_from_word` refuses to treat as
accounts (lines 482-485). -/
def detectSkipKws : List (List Char) :=
  strs ["transfer", "pindah", "tarik", "ambil", "kirim", "dari", "ke",
    "topup", "top", "up", "isi", "saldo", "tunai"]

/-- The expanded specific-bank list (lines 490-494, also the withdrawal
check at lines 256-260; `btn` is listed twice as in the source). -/
def specificBanks23 : List (List Char) :=
  strs ["bca", "bri", "bni", "mandiri", "btn", "cimb", "danamon", "mega",
    "permata", "panin", "bukopin", "maybank", "btn", "bjb", "bsi",
    "btpn", "jenius", "neo", "seabank", "uob", "ocbc", "dbs", "hsbc"]

/-- The shorter specific-bank list of `_detect_account_for_transaction`
(line 522). -/
def specificBanks12 : List (List Char) :=
  strs ["bca", "bri", "bni", "mandiri", "btn", "cimb", "danamon", "mega",
    "permata", "panin", "bukopin", "maybank"]

/-- Account mapping of `_detect_account_from_word` (lines 499-506), in
declaration order. -/
def accountMapping : List (List Char × List (List Char)) :=
  [(sCash, strs ["cash", "tunai", "uang"]),
   ("dana".toList, strs ["dana"]),
   ("gopay".toList, strs ["gopay", "gojek"]),
   ("ovo".toList, strs ["ovo"]),
   ("shopee".toList, strs ["shopee", "shopeepay"]),
   ("bank".toList, strs ["bank", "rekening"])]

/-- Shopping platform to default payment method map (lines 531-539). -/
def platformPaymentMap : List (List Char × List Char) :=
  [("shopee".toList, "shopeepay".toList),
   ("tokopedia".toList, sCash),
   ("bukalapak".toList, sCash),
   ("lazada".toList, sCash),
   ("blibli".toList, sCash),
   ("jd.id".toList, sCash),
   ("zalora".toList, sCash)]

/-- Payment-method keyword map used inside the platform branch
(lines 544-550). -/
def paymentKeywords : List (List Char × List (List Char)) :=
  [("shopeepay".toList, strs ["shopeepay", "shopee pay"]),
   ("dana".toList, strs ["dana"]),
   ("gopay".toList, strs ["gopay"]),
   ("ovo".toList, strs ["ovo"]),
   (sCash, strs ["cash", "tunai", "cod"])]

/-- Account keyword map of `_detect_account_for_transaction`
(lines 562-570). -/
def accountKeywords : List (List Char × List (List Char)) :=
  [(sCash, strs ["cash", "tunai"]),
   ("bank".toList, strs ["bank", "rekening"]),
   ("dana".toList, strs ["dana"]),
   ("gopay".toList, strs ["gopay"]),
   ("ovo".toList, strs ["ovo"]),
   ("shopee".toList, strs ["shopee", "shopeepay"]),
   ("kartu kredit".toList, strs ["kartu kredit", "credit card", "cc", "visa", "mastercard"])]

/-- Transfer/action words skipped around `ke` in the positional resolver
(lines 293 and 304). -/
def keNeighborKws : List (List Char) :=
  strs ["transfer", "pindah", "tarik", "ambil", "kirim", "topup", "isi"]

/-- The skip set of the top-up scan (line 269): the literal list plus the
top-up keywords with spaces removed, as a set. -/
def topupSkipWords : List (List Char) :=
  strs ["topup", "top", "up", "isi", "saldo", "isisaldo"]

/-! ### Account detection -/

/-- Embedding of `_detect_account_from_word` (lines 477-517).  The final
Python branch (a 3-letter alphabetic word is "treated as a bank") returns
`word_lower` exactly like the default fallthrough, so both collapse to
returning the word itself. -/
def detect_account_from_word (word : List Char) : List Char :=
  let w := pyLower word
  if w ∈ detectSkipKws then sCash
  else if w ∈ specificBanks23 then w
  else
    match accountMapping.find? (fun p => w ∈ p.2) with
    | some p => p.1
    | none => w

/-- Embedding of `_detect_account_for_transaction` (lines 519-579). -/
def detect_account_for_transaction (lower category : List Char) : List Char :=
  match specificBanks12.find? (fun b => containsSub b lower) with
  | some b => b
  | none =>
    let platformRes : Option (List Char) :=
      if category = sBelanja then
        match platformPaymentMap.find? (fun p => containsSub p.1 lower) with
        | some pd =>
          match paymentKeywords.find? (fun pk => hasAnyKw pk.2 lower) with
          | some pk => some pk.1
          | none => some pd.2
        | none => none
      else none
    match platformRes with
    | some a => a
    | none =>
      match accountKeywords.find? (fun p => hasAnyKw p.2 lower) with
      | some p => p.1
      | none => sCash

/-! ### Transfer account resolution (fallback branch, lines 231-315) -/

/-- Index of the last occurrence of `w` in `ws`, as the Python
`for i, word in enumerate(words)` loop records it (`-1` becomes `none`). -/
def lastIdxOf (w : List Char) (ws : List (List Char)) : Option Nat :=
  (List.range ws.length).foldl (fun acc i => if ws.getD i [] = w then some i else acc) none

/-- The withdrawal special case (lines 251-264): scan all tokens for the
first recognized specific bank; on a hit the pair becomes (bank, cash). -/
def withdrawalScan (words : List (List Char)) (sd : List Char × List Char) :
    List Char × List Char :=
  match words.find? (fun w =>
      let a := detect_account_from_word w
      ¬ a = sCash ∧ a ∈ specificBanks23) with
  | some w => (detect_account_from_word w, sCash)
  | none => sd

/-- The top-up special case (lines 265-280): scan tokens, skipping top-up
keywords, for the first non-cash account; on a hit the pair becomes
(cash, account). -/
def topupScan (words : List (List Char)) (sd : List Char × List Char) :
    List Char × List Char :=
  match words.find? (fun w =>
      ¬ w ∈ topupSkipWords ∧
        (let a := detect_account_from_word w
         ¬ a = sCash ∧ ¬ a ∈ topupSkipWords)) with
  | some w => (sCash, detect_account_from_word w)
  | none => sd

/-- Candidate source around a bare `ke` token (lines 290-299): the word
before `ke` unless it is a transfer / action keyword, in which case the
resolver looks one token further back. -/
def keSrcResolve (words : List (List Char)) (ki : Nat) (s1 : List Char) : List Char :=
  if 0 < ki then
    if (words.getD (ki - 1) []) ∈ keNeighborKws then
      if 1 < ki then detect_account_from_word (words.getD (ki - 2) []) else s1
    else detect_account_from_word (words.getD (ki - 1) [])
  else s1

/-- Candidate destination after a bare `ke` token (lines 301-305), skipped
when the following word is itself a transfer keyword. -/
def keDestResolve (words : List (List Char)) (ki : Nat) (d1 : List Char) : List Char :=
  if ki + 1 < words.length then
    if (words.getD (ki + 1) []) ∈ keNeighborKws then d1
    else detect_account_from_word (words.getD (ki + 1) [])
  else d1

/-- The `elif ke_index != -1` branch (lines 288-311), including the final
`Transfer X ke Y` override (lines 307-311). -/
def keBranch (words : List (List Char)) (ki : Nat) (sd : List Char × List Char) :
    List Char × List Char :=
  if 1 < ki ∧ words.getD (ki - 2) [] = sTransfer then
    (detect_account_from_word (words.getD (ki - 1) []),
     if ki + 1 < words.length then detect_account_from_word (words.getD (ki + 1) [])
     else keDestResolve words ki sd.2)
  else (keSrcResolve words ki sd.1, keDestResolve words ki sd.2)

/-- The positional `dari`/`ke` block (lines 282-311), applied AFTER the
special cases and overwriting their result where its conditions hold: the
`dari ... ke ...` pattern when both tokens occur in that order, otherwise
the bare-`ke` branch whenever a `ke` token exists. -/
def positionalResolve (words : List (List Char)) (dariIdx keIdx : Option Nat)
    (sd : List Char × List Char) : List Char × List Char :=
  match keIdx with
  | none => sd
  | some ki =>
    match dariIdx with
    | some di =>
      if di < ki then
        (if di + 1 < words.length then detect_account_from_word (words.getD (di + 1) []) else sd.1,
         if ki + 1 < words.length then detect_account_from_word (words.getD (ki + 1) []) else sd.2)
      else keBranch words ki sd
    | none => keBranch words ki sd

/-- The withdrawal / top-up special handling (lines 247-280), producing the
initial source/destination pair from the `(cash, cash)` defaults. -/
def specialCaseResolve (lower : List Char) : List Char × List Char :=
  if hasAnyKw withdrawalKws lower then withdrawalScan (splitWs lower) (sCash, sCash)
  else if hasAnyKw topupKws lower then topupScan (splitWs lower) (sCash, sCash)
  else (sCash, sCash)

/-- Source/destination resolution for inputs classified as transfers
(lines 231-311): special cases first, then the positional block. -/
def resolveTransferAccounts (lower : List Char) : List Char × List Char :=
  positionalResolve (splitWs lower) (lastIdxOf ("dari".toList) (splitWs lower))
    (lastIdxOf ("ke".toList) (splitWs lower)) (specialCaseResolve lower)

/-! ### The fallback parser (`_parse_with_fallback`, lines 205-410) -/

/-- The working record of `_parse_with_fallback`: the result dictionary's
statically known fields (`akun_asal`/`akun_tujuan` only exist after the
transfer branch assigns them). -/
structure Raw where
  tipe : List Char
  nominal : Dec
  akun : List Char
  kategori : List Char
  catatan : List Char
  akunAsal : Option (List Char)
  akunTujuan : Option (List Char)
deriving DecidableEq

/-- The default result dictionary (lines 213-219). -/
def fbDefault (input : List Char) : Raw :=
  ⟨sPengeluaran, Dec.ofNat 0, sCash, sLainnya, input, none, none⟩

/-- Transfer detection and account resolution (lines 226-315). -/
def fbTransferStep (lower : List Char) (r : Raw) : Raw :=
  if hasAnyKw fbTransferKws lower then
    let sd := resolveTransferAccounts lower
    { r with
        tipe := sTransfer
        kategori := sTransfer
        akunAsal := some sd.1
        akunTujuan := some sd.2 }
  else r

/-- Income detection (lines 317-322), overriding the transfer tag. -/
def fbIncomeStep (lower : List Char) (r : Raw) : Raw :=
  if hasAnyKw incomeKws lower then { r with tipe := sPemasukan, kategori := sGaji } else r

/-- Expense category classification (lines 354-370). -/
def categoryOf (lower : List Char) : List Char :=
  if hasAnyKw foodKws lower then sMakanan
  else if hasAnyKw transportKws lower then sTransportasi
  else if hasAnyKw shoppingKws lower then sBelanja
  else if hasAnyKw entertainmentKws lower then sHiburan
  else sLainnya

/-- The category block runs only for expenses (line 355). -/
def fbCategoryStep (lower : List Char) (r : Raw) : Raw :=
  if r.tipe = sPengeluaran then { r with kategori := categoryOf lower } else r

/-- Amount extraction (lines 372-394). -/
def fbAmountStep (lower : List Char) (r : Raw) : Raw :=
  match extractNominal lower with
  | some q => { r with nominal := q }
  | none => r

/-- Single-account detection for non-transfers (lines 396-403). -/
def fbAccountStep (lower : List Char) (r : Raw) : Raw :=
  if r.tipe = sTransfer then r
  else { r with akun := detect_account_for_transaction lower r.kategori }

/-- The working record as the Python dictionary it denotes, in insertion
order (`akun_asal`/`akun_tujuan` are appended by later assignment). -/
def rawToDict (r : Raw) : Dict :=
  [(kTipe, .vstr r.tipe), (kNominal, .vnum r.nominal), (kAkun, .vstr r.akun),
    (kKategori, .vstr r.kategori), (kCatatan, .vstr r.catatan)]
  ++ (match r.akunAsal with | some a => [(kAkunAsal, Val.vstr a)] | none => [])
  ++ (match r.akunTujuan with | some a => [(kAkunTujuan, Val.vstr a)] | none => [])

/-- The result record of `_parse_with_fallback` after all detection steps,
just before the final amount check (lines 205-403). -/
def fbRecord (input : List Char) : Raw :=
  fbAccountStep (pyLower input) (fbAmountStep (pyLower input) (fbCategoryStep (pyLower input)
    (fbIncomeStep (pyLower input) (fbTransferStep (pyLower input) (fbDefault input)))))

/-- Embedding of `_parse_with_fallback` (lines 205-410); `none` models the
raised ValueError. -/
def parse_with_fallback (input : List Char) : Option Dict :=
  if (fbRecord input).nominal.leB (Dec.ofNat 0) then none
  else validate_transaction_data (rawToDict (fbRecord input))

/-! ### The model-backed parser and the orchestrator -/

/-- Required-field check of `_parse_with_ai` (lines 187-197). -/
def requiredFieldsOk (tipe : List Char) (parsed : Dict) : Bool :=
  (if tipe = sTransfer then [kTipe, kNominal, kAkunAsal, kAkunTujuan, kCatatan]
   else [kTipe, kNominal, kAkun, kKategori, kCatatan]).all (fun f => dhas parsed f)

/-- The tail of `_parse_with_ai` once the cross-check has decided to keep
the oracle's result (lines 187-203): required-field check, then validation. -/
def aiProceed (parsed : Dict) (t0 : List Char) : Option Dict :=
  if requiredFieldsOk t0 parsed then validate_transaction_data parsed else none

/-- Embedding of `_parse_with_ai` (lines 141-203).  `resp` is the oracle
response after JSON decoding; `none` stands for every failure up to and
including JSON parsing (exception, empty text, malformed JSON), and any
internal exception also yields `none` since the caller catches them all
alike.  `t0` is `parsed_data.get('tipe', '').lower()`, which raises on a
non-string value. -/
def parse_with_ai (resp : Option Dict) (input : List Char) : Option Dict :=
  match resp with
  | none => none
  | some parsed =>
    match valLower (dgetD parsed kTipe (Val.vstr [])) with
    | none => none
    | some t0 =>
      if (hasAnyKw aiTransferKws (pyLower input) ∨ hasAnyKw aiWithdrawalKws (pyLower input)
            ∨ hasAnyKw aiTopupKws (pyLower input)) ∧ ¬ t0 = sTransfer then
        match parse_with_fallback input with
        | none => none
        | some fb =>
          if dget fb kTipe = some (Val.vstr sTransfer) then some fb else aiProceed parsed t0
      else aiProceed parsed t0

/-- Input cleaning at the head of `parse_transaction` (lines 119-121):
strip, then drop a leading `/input ` command marker. -/
def cleanInput (userInput : List Char) : List Char :=
  let c := pyStrip userInput
  if ("/input ".toList).isPrefixOf c then c.drop 7 else c

def msgEmpty : List Char := "Empty transaction input".toList

def msgUnable : List Char :=
  "Unable to parse transaction. Please try a simpler format like \x27bakso 15k cash\x27".toList

def msgWrap : List Char := "Failed to parse transaction: ".toList

/-- Embedding of `parse_transaction` (lines 107-139): clean, reject empty,
try the AI path, fall back, and wrap any resulting error in the outer
handler's message. -/
def parse_transaction (resp : Option Dict) (userInput : List Char) :
    Except (List Char) Dict :=
  if cleanInput userInput = [] then .error (msgWrap ++ msgEmpty)
  else
    match parse_with_ai resp (cleanInput userInput) with
    | some d => .ok d
    | none =>
      match parse_with_fallback (cleanInput userInput) with
      | some d => .ok d
      | none => .error (msgWrap ++ msgUnable)

/-- Embedding of `parse_multiple_transactions` (lines 581-602): each input
parsed independently, errors recorded per entry. -/
def parse_multiple_transactions (resp : Option Dict) (inputs : List (List Char)) :
    List (Except (List Char) Dict) :=
  inputs.map (fun s => parse_transaction resp s)

/-! ### Abbreviations used in concrete statements -/

/-- A string dictionary value. -/
def vs (s : String) : Val :=
  .vstr s.toList

/-- An integral numeric dictionary value. -/
def vn (n : Nat) : Val :=
  .vnum (Dec.ofNat n)

/-- The first-matching amount pattern's literal, in the priority order
jt, rb, k, bare number, with no multiplier applied. -/
def firstAmountLit (lower : List Char) : Option Dec :=
  match searchNum ("jt".toList) lower with
  | some l => some l
  | none =>
    match searchNum ("rb".toList) lower with
    | some l => some l
    | none =>
      match searchNum ("k".toList) lower with
      | some l => some l
      | none => searchNum [] lower

end Cashmate

namespace Cashmate

/-! ### Supporting lemmas -/

theorem dget_cons (k' : List Char) (v : Val) (d : Dict) (k : List Char) :
    dget ((k', v) :: d) k = if k' = k then some v else dget d k := by
  by_cases h : k' = k <;> simp [dget, List.find?, h]

theorem dropWhile_rdropWhile (p : Char → Bool) (l : List Char)
    (hl : l.dropWhile p = l) : (l.rdropWhile p).dropWhile p = l.rdropWhile p := by
  rcases hr : l.rdropWhile p with _ | ⟨c, t⟩
  · simp
  · have hpre : (c :: t) <+: l := hr ▸ List.rdropWhile_prefix p l
    rcases hpre with ⟨rest, hrest⟩
    have hpc : p c = false := by
      by_contra hpc
      have hpc' : p c = true := by simpa using hpc
      have h1 : l.dropWhile p = (t ++ rest).dropWhile p := by
        rw [← hrest]
        simp [List.dropWhile_cons, hpc']
      have h2 : ((t ++ rest).dropWhile p).length ≤ (t ++ rest).length :=
        ((t ++ rest).dropWhile_sublist p).length_le
      rw [hl] at h1
      have h3 : l.length ≤ (t ++ rest).length := h1 ▸ h2
      rw [← hrest] at h3
      simp at h3
    simp [List.dropWhile_cons, hpc]

theorem pyStrip_idem (s : List Char) : pyStrip (pyStrip s) = pyStrip s := by
  unfold pyStrip
  rw [dropWhile_rdropWhile _ _ (List.dropWhile_idempotent _ _), List.rdropWhile_idempotent]

theorem ltB_zero_iff (q : Dec) : (Dec.ofNat 0).ltB q = true ↔ ¬ q.leB (Dec.ofNat 0) = true := by
  simp [Dec.ltB, Dec.leB, Dec.ofNat]

theorem validate_tipe (data d : Dict) (h : validate_transaction_data data = some d) :
    dget d kTipe = some (.vstr (coerceTipe data)) := by
  unfold validate_transaction_data at h
  split at h
  · exact absurd h (by simp)
  · split at h
    · exact absurd h (by simp)
    · by_cases hT : coerceTipe data = sTransfer <;>
        (simp only [hT, if_true, if_false, reduceIte] at h;
         simp only [Option.some.injEq] at h; subst h; simp [dget_cons, hT])

theorem fbTransferStep_nominal (lower : List Char) (r : Raw) :
    (fbTransferStep lower r).nominal = r.nominal := by
  unfold fbTransferStep; split <;> rfl

theorem fbIncomeStep_nominal (lower : List Char) (r : Raw) :
    (fbIncomeStep lower r).nominal = r.nominal := by
  unfold fbIncomeStep; split <;> rfl

theorem fbCategoryStep_nominal (lower : List Char) (r : Raw) :
    (fbCategoryStep lower r).nominal = r.nominal := by
  unfold fbCategoryStep; split <;> rfl

theorem fbAccountStep_nominal (lower : List Char) (r : Raw) :
    (fbAccountStep lower r).nominal = r.nominal := by
  unfold fbAccountStep; split <;> rfl

theorem dget_rawToDict_nominal (r : Raw) :
    dget (rawToDict r) kNominal = some (.vnum r.nominal) := by
  simp [rawToDict, dget_cons]
  decide

theorem fbRecord_nominal (input : List Char) :
    (fbRecord input).nominal = (extractNominal (pyLower input)).getD (Dec.ofNat 0) := by
  unfold fbRecord
  rw [fbAccountStep_nominal]
  unfold fbAmountStep
  cases extractNominal (pyLower input) <;>
    simp [fbCategoryStep_nominal, fbIncomeStep_nominal, fbTransferStep_nominal, fbDefault]

theorem validate_some_of_nominal (data : Dict) (q : Dec)
    (hq : dget data kNominal = some (.vnum q)) (hpos : ¬ q.leB (Dec.ofNat 0) = true) :
    ∃ d, validate_transaction_data data = some d ∧ dget d kNominal = some (.vnum q) := by
  unfold validate_transaction_data
  have hd : dgetD data kNominal (Val.vnum (Dec.ofNat 0)) = .vnum q := by simp [dgetD, hq]
  rw [hd]
  simp only [toFloat, hpos, if_false, reduceIte]
  by_cases hT : coerceTipe data = sTransfer <;>
    (simp only [hT, if_true, if_false, reduceIte];
     refine ⟨_, rfl, ?_⟩; simp [dget_cons]; decide)

theorem coerceTipe_cases (data : Dict) :
    coerceTipe data = sPemasukan ∨ coerceTipe data = sPengeluaran ∨ coerceTipe data = sTransfer := by
  unfold coerceTipe tipeNorm
  split
  · next h => exact h
  · right; left; rfl

theorem stripped_ok (x dflt : List Char) (h1 : ¬ dflt = []) (h2 : pyStrip dflt = dflt) :
    ¬ (if pyStrip x = [] then dflt else pyStrip x) = [] ∧
    pyStrip (if pyStrip x = [] then dflt else pyStrip x)
      = (if pyStrip x = [] then dflt else pyStrip x) := by
  by_cases hx : pyStrip x = [] <;> simp [hx, h1, h2, pyStrip_idem]

theorem coerceTipe_ok (data : Dict) :
    ¬ coerceTipe data = [] ∧ pyStrip (coerceTipe data) = coerceTipe data := by
  rcases coerceTipe_cases data with hc | hc | hc <;> rw [hc] <;> exact ⟨by decide, by decide⟩

theorem containsSub_trans (a b lower : List Char) (hab : a <:+: b)
    (h : containsSub b lower = true) : containsSub a lower = true := by
  simp [containsSub] at h ⊢
  exact hab.trans h

theorem ai_to_fb_kws (lower : List Char) (h : hasAnyKw aiTransferKws lower = true) :
    hasAnyKw fbTransferKws lower = true := by
  simp only [hasAnyKw, List.any_eq_true] at h ⊢
  rcases h with ⟨k, hk, hc⟩
  simp only [aiTransferKws, strs, List.map_cons, List.map_nil, List.mem_cons,
    List.not_mem_nil, or_false] at hk
  rcases hk with rfl | rfl | rfl | rfl | rfl | rfl | rfl | rfl | rfl | rfl
  · exact ⟨_, by decide, hc⟩
  · exact ⟨_, by decide, hc⟩
  · exact ⟨_, by decide, hc⟩
  · exact ⟨("ambil".toList), by decide, containsSub_trans _ _ _ (by decide) hc⟩
  · exact ⟨_, by decide, hc⟩
  · exact ⟨_, by decide, hc⟩
  · exact ⟨_, by decide, hc⟩
  · exact ⟨_, by decide, hc⟩
  · exact ⟨_, by decide, hc⟩
  · exact ⟨_, by decide, hc⟩

theorem fbCategoryStep_tipe (lower : List Char) (r : Raw) :
    (fbCategoryStep lower r).tipe = r.tipe := by
  unfold fbCategoryStep; split <;> rfl

theorem fbAmountStep_tipe (lower : List Char) (r : Raw) :
    (fbAmountStep lower r).tipe = r.tipe := by
  unfold fbAmountStep; split <;> rfl

theorem fbAccountStep_tipe (lower : List Char) (r : Raw) :
    (fbAccountStep lower r).tipe = r.tipe := by
  unfold fbAccountStep; split <;> rfl

theorem fbRecord_tipe_transfer (input : List Char)
    (hT : hasAnyKw fbTransferKws (pyLower input) = true)
    (hI : hasAnyKw incomeKws (pyLower input) = false) :
    (fbRecord input).tipe = sTransfer := by
  unfold fbRecord
  rw [fbAccountStep_tipe, fbAmountStep_tipe, fbCategoryStep_tipe]
  simp [fbIncomeStep, hI, fbTransferStep, hT]

theorem coerceTipe_rawToDict (r : Raw) :
    coerceTipe (rawToDict r) = tipeNorm (pyLower r.tipe) := by
  simp [coerceTipe, rawToDict, dgetD, dget_cons, pyStr]

theorem fb_transfer_tipe (input : List Char) (d : Dict)
    (hT : hasAnyKw fbTransferKws (pyLower input) = true)
    (hI : hasAnyKw incomeKws (pyLower input) = false)
    (h : parse_with_fallback input = some d) :
    dget d kTipe = some (Val.vstr sTransfer) := by
  unfold parse_with_fallback at h
  split at h
  · exact absurd h (by simp)
  · have hvt := validate_tipe _ _ h
    rw [coerceTipe_rawToDict, fbRecord_tipe_transfer input hT hI] at hvt
    rw [hvt]
    decide

theorem ai_transfer_tipe (resp : Option Dict) (input : List Char) (d : Dict)
    (hkw : hasAnyKw aiTransferKws (pyLower input) = true)
    (hI : hasAnyKw incomeKws (pyLower input) = false)
    (h : parse_with_ai resp input = some d) :
    dget d kTipe = some (Val.vstr sTransfer) := by
  cases resp with
  | none => exact absurd h (by simp [parse_with_ai])
  | some parsed =>
    simp only [parse_with_ai] at h
    split at h
    · exact absurd h (by simp)
    · rename_i t0 ht0eq
      by_cases ht0 : t0 = sTransfer
      · rw [if_neg (by simp [ht0])] at h
        unfold aiProceed at h
        split at h
        · have hvt := validate_tipe _ _ h
          rcases hv : dgetD parsed kTipe (Val.vstr []) with s | q
          · rw [hv] at ht0eq
            simp only [valLower, Option.some.injEq] at ht0eq
            rw [hvt, coerceTipe, hv]
            simp only [pyStr]
            rw [ht0eq, ht0]
            decide
          · rw [hv] at ht0eq
            simp [valLower] at ht0eq
        · exact absurd h (by simp)
      · rw [if_pos ⟨Or.inl hkw, ht0⟩] at h
        split at h
        · exact absurd h (by simp)
        · rename_i fb hfb
          have hfbt := fb_transfer_tipe input fb (ai_to_fb_kws _ hkw) hI hfb
          rw [if_pos hfbt] at h
          simp only [Option.some.injEq] at h
          subst h
          exact hfbt

/-! ### Claim theorems -/

/-- C1 counterexample: the input `gaji 5jt ke bank` contains the
transfer-trigger substring `ke` (a member of the cross-check keyword list),
yet the validated result of `parse_transaction` has type `pemasukan`, not
`transfer` — the income keyword `gaji` overrides the transfer tag in the
fallback parser, so the claim as stated is false. -/
theorem c1_counterexample :
    containsSub ("ke".toList) (pyLower (cleanInput ("gaji 5jt ke bank".toList))) = true ∧
    ("ke".toList) ∈ aiTransferKws ∧ ("ke".toList) ∈ fbTransferKws ∧
    parse_transaction none ("gaji 5jt ke bank".toList)
      = .ok [(kTipe, vs "pemasukan"), (kNominal, vn 5000000), (kAkun, vs "bank"),
          (kKategori, vs "gaji"), (kCatatan, vs "gaji 5jt ke bank")] ∧
    ¬ dget [(kTipe, vs "pemasukan"), (kNominal, vn 5000000), (kAkun, vs "bank"),
          (kKategori, vs "gaji"), (kCatatan, vs "gaji 5jt ke bank")] kTipe
        = some (Val.vstr sTransfer) := by
  refine ⟨by decide, by decide, by decide, by decide, by decide⟩

/-- C1 (amended): for every input whose cleaned, lowercased text contains a
transfer-trigger substring of the cross-check list AND contains no
income-trigger substring, every successfully returned validated transaction
has type `transfer`, on both the model path (for every oracle response) and
the fallback path. -/
theorem c1_transfer_trigger_amended (resp : Option Dict) (input : List Char)
    (hkw : hasAnyKw aiTransferKws (pyLower (cleanInput input)) = true)
    (hI : hasAnyKw incomeKws (pyLower (cleanInput input)) = false)
    (d : Dict) (h : parse_transaction resp input = .ok d) :
    dget d kTipe = some (Val.vstr sTransfer) := by
  unfold parse_transaction at h
  split at h
  · exact absurd h (by simp)
  · split at h
    · rename_i d' hai
      simp only [Except.ok.injEq] at h
      subst h
      exact ai_transfer_tipe resp _ d' hkw hI hai
    · split at h
      · rename_i fb hfb
        simp only [Except.ok.injEq] at h
        subst h
        exact fb_transfer_tipe _ _ (ai_to_fb_kws _ hkw) hI hfb
      · exact absurd h (by simp)

/-- C1 witness: the amended theorem applied at the concrete input
`transfer 50k` with a failed oracle. -/
theorem c1_transfer_trigger_amended_witness :
    hasAnyKw aiTransferKws (pyLower (cleanInput ("transfer 50k".toList))) = true ∧
    hasAnyKw incomeKws (pyLower (cleanInput ("transfer 50k".toList))) = false ∧
    dget [(kTipe, vs "transfer"), (kNominal, vn 50000), (kAkunAsal, vs "cash"),
        (kAkunTujuan, vs "cash"), (kKategori, vs "transfer"), (kCatatan, vs "transfer 50k")]
      kTipe = some (Val.vstr sTransfer) :=
  ⟨by decide, by decide,
    c1_transfer_trigger_amended none ("transfer 50k".toList) (by decide) (by decide)
      [(kTipe, vs "transfer"), (kNominal, vn 50000), (kAkunAsal, vs "cash"),
        (kAkunTujuan, vs "cash"), (kKategori, vs "transfer"), (kCatatan, vs "transfer 50k")]
      (by decide)⟩

/-- C2 counterexample: in `kopi 5000`, the first (and only) matching
pattern is the bare number with literal `5000`, whose own unit factor is 1;
but the loop body tests `k` as a substring of the whole input, finds the
`k` of `kopi`, and the code resolves the amount to 5000000 instead of
5000. -/
theorem c2_counterexample :
    searchNum ("jt".toList) (pyLower ("kopi 5000".toList)) = none ∧
    searchNum ("rb".toList) (pyLower ("kopi 5000".toList)) = none ∧
    searchNum ("k".toList) (pyLower ("kopi 5000".toList)) = none ∧
    searchNum [] (pyLower ("kopi 5000".toList)) = some (Dec.ofNat 5000) ∧
    firstAmountLit (pyLower ("kopi 5000".toList)) = some (Dec.ofNat 5000) ∧
    extractNominal (pyLower ("kopi 5000".toList)) = some (Dec.ofNat 5000000) ∧
    ¬ (Dec.ofNat 5000000) = (Dec.ofNat 5000).mulNat 1 := by
  refine ⟨by decide, by decide, by decide, by decide, by decide, by decide, by decide⟩

/-- C2 (amended): the four regex patterns are tried over the whole
lowercased input in strict priority order (jt, rb, k, bare number) and the
first match anywhere wins; the resolved amount is that pattern's numeric
literal multiplied NOT by the matched pattern's own suffix factor but by a
single factor chosen by substring tests over the whole input: 1000000 when
`jt` occurs anywhere, else 1000 when `rb` occurs anywhere, else 1000 when
`k` occurs anywhere, else 1. -/
theorem c2_amount_factor_amended (lower : List Char) :
    extractNominal lower
      = (firstAmountLit lower).map (fun lit => lit.mulNat (unitFactor lower)) := by
  unfold extractNominal firstAmountLit
  cases searchNum ("jt".toList) lower <;>
    (first | rfl | cases searchNum ("rb".toList) lower) <;>
    (first | rfl | cases searchNum ("k".toList) lower) <;>
    (first | rfl | cases searchNum ([] : List Char) lower) <;> rfl

/-- C3: evaluation of the parser at the spec scenario `bakso 15k pake cash`.
The claim (and the code's own prompt examples) expect a regular expense
with category `makanan` and account `cash`, but the substring test
`'ke' in input_lower` fires inside the word `pake`, so the code classifies
the input as a cash-to-cash transfer of 15000 — the code contradicts its
intended word-level transfer detection. -/
theorem c3_bakso_pake_cash_eval :
    parse_transaction none ("bakso 15k pake cash".toList)
      = .ok [(kTipe, vs "transfer"), (kNominal, vn 15000), (kAkunAsal, vs "cash"),
          (kAkunTujuan, vs "cash"), (kKategori, vs "transfer"),
          (kCatatan, vs "bakso 15k pake cash")] ∧
    containsSub ("ke".toList) (pyLower ("bakso 15k pake cash".toList)) = true ∧
    ¬ dget [(kTipe, vs "transfer"), (kNominal, vn 15000), (kAkunAsal, vs "cash"),
          (kAkunTujuan, vs "cash"), (kKategori, vs "transfer"),
          (kCatatan, vs "bakso 15k pake cash")] kTipe = some (Val.vstr sPengeluaran) := by
  refine ⟨by decide, by decide, by decide⟩

/-- C4: parsing `gaji bulan ini 5jt ke bank` (along the deterministic
fallback path, the oracle having failed) yields an income transaction
(`pemasukan`) of 5000000 on account `bank` with category `gaji`, even
though the text contains the transfer-trigger substring `ke` — the income
keyword `gaji` overrides the transfer tag. -/
theorem c4_gaji_bulan_ini_scenario :
    parse_transaction none ("gaji bulan ini 5jt ke bank".toList)
      = .ok [(kTipe, vs "pemasukan"), (kNominal, vn 5000000), (kAkun, vs "bank"),
          (kKategori, vs "gaji"), (kCatatan, vs "gaji bulan ini 5jt ke bank")] := by
  decide

/-- C5 counterexample: `tarik tunai bri ke dana 500k` carries withdrawal
phrasing, so by the claim the destination should be the canonical cash
account; but the positional `ke` resolution runs AFTER the special case and
overwrites the destination with `dana`. -/
theorem c5_counterexample :
    hasAnyKw withdrawalKws (pyLower ("tarik tunai bri ke dana 500k".toList)) = true ∧
    parse_transaction none ("tarik tunai bri ke dana 500k".toList)
      = .ok [(kTipe, vs "transfer"), (kNominal, vn 500000), (kAkunAsal, vs "bri"),
          (kAkunTujuan, vs "dana"), (kKategori, vs "transfer"),
          (kCatatan, vs "tarik tunai bri ke dana 500k")] ∧
    ¬ dget [(kTipe, vs "transfer"), (kNominal, vn 500000), (kAkunAsal, vs "bri"),
          (kAkunTujuan, vs "dana"), (kKategori, vs "transfer"),
          (kCatatan, vs "tarik tunai bri ke dana 500k")] kAkunTujuan
        = some (Val.vstr sCash) := by
  refine ⟨by decide, by decide, by decide⟩

/-- C5 (amended): the withdrawal / top-up special cases are applied FIRST
and their values stand only when no positional pattern fires: when neither
`dari` nor `ke` occurs as a token, withdrawal phrasing resolves the pair by
the bank scan (first recognized bank as source, cash as destination) and
top-up phrasing (absent withdrawal phrasing) by the top-up scan (cash as
source, first recognized non-cash account as destination); but when a `ke`
token is present, the positional resolution of steps 1-3 overwrites the
special-case values, e.g. the destination becomes the account detected
from the token after `ke` whenever that token is not a transfer keyword. -/
theorem c5_special_case_amended (lower : List Char) :
    (lastIdxOf ("dari".toList) (splitWs lower) = none →
      lastIdxOf ("ke".toList) (splitWs lower) = none →
      hasAnyKw withdrawalKws lower = true →
      resolveTransferAccounts lower = withdrawalScan (splitWs lower) (sCash, sCash)) ∧
    (lastIdxOf ("dari".toList) (splitWs lower) = none →
      lastIdxOf ("ke".toList) (splitWs lower) = none →
      hasAnyKw withdrawalKws lower = false → hasAnyKw topupKws lower = true →
      resolveTransferAccounts lower = topupScan (splitWs lower) (sCash, sCash)) ∧
    (∀ ki, lastIdxOf ("dari".toList) (splitWs lower) = none →
      lastIdxOf ("ke".toList) (splitWs lower) = some ki →
      ki + 1 < (splitWs lower).length →
      ¬ (splitWs lower).getD (ki + 1) [] ∈ keNeighborKws →
      (resolveTransferAccounts lower).2
        = detect_account_from_word ((splitWs lower).getD (ki + 1) [])) := by
  refine ⟨?_, ?_, ?_⟩
  · intro _ hk hw
    unfold resolveTransferAccounts
    rw [hk]
    simp [positionalResolve, specialCaseResolve, hw]
  · intro _ hk hw ht
    unfold resolveTransferAccounts
    rw [hk]
    simp [positionalResolve, specialCaseResolve, hw, ht]
  · intro ki hd hk hlen hkw
    unfold resolveTransferAccounts
    rw [hd, hk]
    simp only [positionalResolve]
    unfold keBranch
    by_cases hsp : 1 < ki ∧ (splitWs lower).getD (ki - 2) [] = sTransfer
    · rw [if_pos hsp]
      simp [hlen]
    · rw [if_neg hsp]
      simp only [Prod.snd]
      unfold keDestResolve
      rw [if_pos hlen, if_neg hkw]

/-- C5 witness: the amended theorem's withdrawal conjunct applied at
`tarik tunai bri 1jt`, where no connector token occurs and the special
case stands. -/
theorem c5_special_case_amended_witness :
    lastIdxOf ("dari".toList) (splitWs ("tarik tunai bri 1jt".toList)) = none ∧
    lastIdxOf ("ke".toList) (splitWs ("tarik tunai bri 1jt".toList)) = none ∧
    hasAnyKw withdrawalKws ("tarik tunai bri 1jt".toList) = true ∧
    resolveTransferAccounts ("tarik tunai bri 1jt".toList)
      = withdrawalScan (splitWs ("tarik tunai bri 1jt".toList)) (sCash, sCash) :=
  ⟨by decide, by decide, by decide,
    (c5_special_case_amended ("tarik tunai bri 1jt".toList)).1 (by decide) (by decide)
      (by decide)⟩

/-- C6: parsing `Tarik tunai BRI 1jt` (along the deterministic fallback
path, the oracle having failed) yields a transfer of 1000000 from `bri` to
`cash`. -/
theorem c6_tarik_tunai_scenario :
    parse_transaction none ("Tarik tunai BRI 1jt".toList)
      = .ok [(kTipe, vs "transfer"), (kNominal, vn 1000000), (kAkunAsal, vs "bri"),
          (kAkunTujuan, vs "cash"), (kKategori, vs "transfer"),
          (kCatatan, vs "Tarik tunai BRI 1jt")] := by
  decide

/-- C7: the fallback parser fails exactly when the amount extraction of
its four-pattern search yields no strictly positive value; whenever the
extracted amount is positive it returns a validated record carrying that
amount, and it returns nothing (models the raised ValueError) otherwise. -/
theorem c7_fallback_amount_failure (input : List Char) :
    match extractNominal (pyLower input) with
    | some q =>
      if (Dec.ofNat 0).ltB q = true then
        ∃ d, parse_with_fallback input = some d ∧ dget d kNominal = some (.vnum q)
      else parse_with_fallback input = none
    | none => parse_with_fallback input = none := by
  cases hE : extractNominal (pyLower input) with
  | none =>
    simp only []
    unfold parse_with_fallback
    rw [fbRecord_nominal, hE]
    simp [Dec.leB, Dec.ofNat]
  | some q =>
    simp only []
    have h5 : (fbRecord input).nominal = q := by rw [fbRecord_nominal, hE]; rfl
    by_cases hpos : (Dec.ofNat 0).ltB q = true
    · rw [if_pos hpos]
      have hle : ¬ q.leB (Dec.ofNat 0) = true := (ltB_zero_iff q).mp hpos
      unfold parse_with_fallback
      rw [fbRecord_nominal, hE]
      simp only [Option.getD_some]
      rw [if_neg hle]
      exact validate_some_of_nominal _ q (by rw [dget_rawToDict_nominal, h5]) hle
    · rw [if_neg hpos]
      have hle : q.leB (Dec.ofNat 0) = true := by
        by_contra hc
        exact hpos ((ltB_zero_iff q).mpr hc)
      unfold parse_with_fallback
      rw [fbRecord_nominal, hE]
      simp only [Option.getD_some]
      rw [if_pos hle]

/-- C7 witness: the theorem applied at `halo`, an input with no digits,
where the fallback parser must fail. -/
theorem c7_fallback_amount_failure_witness : parse_with_fallback ("halo".toList) = none := by
  have h := c7_fallback_amount_failure ("halo".toList)
  rw [show extractNominal (pyLower ("halo".toList)) = none from by decide] at h
  exact h

set_option maxRecDepth 8192 in
/-- C8 counterexample: for the unparseable input `halo` both paths fail and
the orchestrator raises its terminal failure, but the raised message is a
fixed string that does NOT contain the original input text. -/
theorem c8_counterexample :
    parse_with_ai none (cleanInput ("halo".toList)) = none ∧
    parse_with_fallback (cleanInput ("halo".toList)) = none ∧
    parse_transaction none ("halo".toList) = .error (msgWrap ++ msgUnable) ∧
    ¬ ("halo".toList) <:+: (msgWrap ++ msgUnable) := by
  refine ⟨by decide, by decide, by decide, by decide⟩

/-- C8 (amended): whenever both the model path and the fallback path fail
on a non-empty cleaned input, `parse_transaction` raises a single terminal
failure whose message is the fixed text suggesting a simpler input format
(`Failed to parse transaction: Unable to parse transaction. Please try a
simpler format like ...`); the message does not include the original input
text. -/
theorem c8_terminal_message_amended (resp : Option Dict) (input : List Char)
    (h1 : ¬ cleanInput input = [])
    (h2 : parse_with_ai resp (cleanInput input) = none)
    (h3 : parse_with_fallback (cleanInput input) = none) :
    parse_transaction resp input = .error (msgWrap ++ msgUnable) := by
  unfold parse_transaction
  rw [if_neg h1, h2, h3]

/-- C8 witness: the amended theorem applied at `halo` with a failed
oracle. -/
theorem c8_terminal_message_amended_witness :
    ¬ cleanInput ("halo".toList) = [] ∧
    parse_with_ai none (cleanInput ("halo".toList)) = none ∧
    parse_with_fallback (cleanInput ("halo".toList)) = none ∧
    parse_transaction none ("halo".toList) = .error (msgWrap ++ msgUnable) :=
  ⟨by decide, by decide, by decide,
    c8_terminal_message_amended none ("halo".toList) (by decide) (by decide) (by decide)⟩

/-- C9: with the oracle fixed to any deterministic response, parsing the
same input twice (modelled by `parse_multiple_transactions` on a two-copy
input list, which calls `parse_transaction` once per entry) produces
identical results — the embedded pipeline is a pure function of the input
text and the oracle response and keeps no state across calls. -/
theorem c9_parse_idempotent (resp : Option Dict) (s : List Char) :
    (parse_multiple_transactions resp [s, s]).get? 0
      = (parse_multiple_transactions resp [s, s]).get? 1 := rfl

/-- C10: whenever the validator succeeds, its output has a strictly
positive numeric `nominal`; the key set is exactly tipe, nominal,
akun_asal, akun_tujuan, kategori, catatan (with kategori forced to
`transfer`) when the coerced type is `transfer`, and exactly tipe, nominal,
akun, kategori, catatan otherwise (any other input keys are dropped); and
every non-nominal field is a trimmed, non-empty string. -/
theorem c10_validator_shape (data d : Dict) (h : validate_transaction_data data = some d) :
    (∃ q, dget d kNominal = some (Val.vnum q) ∧ (Dec.ofNat 0).ltB q = true) ∧
    (if coerceTipe data = sTransfer then
        dkeys d = [kTipe, kNominal, kAkunAsal, kAkunTujuan, kKategori, kCatatan] ∧
        dget d kKategori = some (Val.vstr sTransfer)
      else dkeys d = [kTipe, kNominal, kAkun, kKategori, kCatatan]) ∧
    (∀ k v, (k, v) ∈ d → ¬ k = kNominal → ∃ s, v = Val.vstr s ∧ ¬ s = [] ∧ pyStrip s = s) := by
  have e1 : ¬ kTipe = kNominal := by decide
  have e2 : ¬ kTipe = kKategori := by decide
  have e3 : ¬ kNominal = kKategori := by decide
  have e4 : ¬ kAkunAsal = kKategori := by decide
  have e5 : ¬ kAkunTujuan = kKategori := by decide
  unfold validate_transaction_data at h
  split at h
  · exact absurd h (by simp)
  · rename_i q hq
    split at h
    · exact absurd h (by simp)
    · rename_i hle
      by_cases hT : coerceTipe data = sTransfer
      · simp only [hT, if_true, reduceIte] at h
        simp only [Option.some.injEq] at h
        subst h
        refine ⟨⟨q, by simp [dget_cons, e1], (ltB_zero_iff q).mpr hle⟩, ?_, ?_⟩
        · rw [if_pos hT]
          exact ⟨by simp [dkeys], by simp [dget_cons, e2, e3, e4, e5]⟩
        · intro k v hmem hk
          simp [Prod.mk.injEq] at hmem
          rcases hmem with ⟨rfl, rfl⟩ | ⟨rfl, rfl⟩ | ⟨rfl, rfl⟩ | ⟨rfl, rfl⟩ | ⟨rfl, rfl⟩ | ⟨rfl, rfl⟩
          · exact ⟨_, rfl, by decide, by decide⟩
          · exact absurd rfl hk
          · exact ⟨_, rfl, (stripped_ok _ sCash (by decide) (by decide)).1,
              (stripped_ok _ sCash (by decide) (by decide)).2⟩
          · exact ⟨_, rfl, (stripped_ok _ sCash (by decide) (by decide)).1,
              (stripped_ok _ sCash (by decide) (by decide)).2⟩
          · exact ⟨_, rfl, by decide, by decide⟩
          · exact ⟨_, rfl, (stripped_ok _ sTransaksi (by decide) (by decide)).1,
              (stripped_ok _ sTransaksi (by decide) (by decide)).2⟩
      · simp only [hT, if_false, reduceIte] at h
        simp only [Option.some.injEq] at h
        subst h
        refine ⟨⟨q, by simp [dget_cons, e1], (ltB_zero_iff q).mpr hle⟩, ?_, ?_⟩
        · rw [if_neg hT]
          simp [dkeys]
        · intro k v hmem hk
          simp [Prod.mk.injEq] at hmem
          rcases hmem with ⟨rfl, rfl⟩ | ⟨rfl, rfl⟩ | ⟨rfl, rfl⟩ | ⟨rfl, rfl⟩ | ⟨rfl, rfl⟩
          · exact ⟨_, rfl, (coerceTipe_ok data).1, (coerceTipe_ok data).2⟩
          · exact absurd rfl hk
          · exact ⟨_, rfl, (stripped_ok _ sCash (by decide) (by decide)).1,
              (stripped_ok _ sCash (by decide) (by decide)).2⟩
          · exact ⟨_, rfl, (stripped_ok _ sLainnya (by decide) (by decide)).1,
              (stripped_ok _ sLainnya (by decide) (by decide)).2⟩
          · exact ⟨_, rfl, (stripped_ok _ sTransaksi (by decide) (by decide)).1,
              (stripped_ok _ sTransaksi (by decide) (by decide)).2⟩

/-- C10 witness: the theorem applied to a concrete non-transfer input
dictionary carrying a leftover `akun_asal` key (dropped), an uppercase
type, a string nominal, and an untrimmed note. -/
theorem c10_validator_shape_witness :
    (∃ q, dget [(kTipe, vs "pengeluaran"), (kNominal, vn 15), (kAkun, vs "cash"),
        (kKategori, vs "lainnya"), (kCatatan, vs "beli buku")] kNominal
        = some (Val.vnum q) ∧ (Dec.ofNat 0).ltB q = true) ∧
    (if coerceTipe [(kAkunAsal, vs " bca "), (kTipe, vs "PENGELUARAN"),
          (kNominal, vs "15"), (kCatatan, vs "  beli buku  ")] = sTransfer then
        dkeys [(kTipe, vs "pengeluaran"), (kNominal, vn 15), (kAkun, vs "cash"),
            (kKategori, vs "lainnya"), (kCatatan, vs "beli buku")]
          = [kTipe, kNominal, kAkunAsal, kAkunTujuan, kKategori, kCatatan] ∧
        dget [(kTipe, vs "pengeluaran"), (kNominal, vn 15), (kAkun, vs "cash"),
            (kKategori, vs "lainnya"), (kCatatan, vs "beli buku")] kKategori
          = some (Val.vstr sTransfer)
      else dkeys [(kTipe, vs "pengeluaran"), (kNominal, vn 15), (kAkun, vs "cash"),
          (kKategori, vs "lainnya"), (kCatatan, vs "beli buku")]
        = [kTipe, kNominal, kAkun, kKategori, kCatatan]) ∧
    (∀ k v, (k, v) ∈ [(kTipe, vs "pengeluaran"), (kNominal, vn 15), (kAkun, vs "cash"),
        (kKategori, vs "lainnya"), (kCatatan, vs "beli buku")] → ¬ k = kNominal →
      ∃ s, v = Val.vstr s ∧ ¬ s = [] ∧ pyStrip s = s) :=
  c10_validator_shape
    [(kAkunAsal, vs " bca "), (kTipe, vs "PENGELUARAN"),
      (kNominal, vs "15"), (kCatatan, vs "  beli buku  ")]
    [(kTipe, vs "pengeluaran"), (kNominal, vn 15), (kAkun, vs "cash"),
      (kKategori, vs "lainnya"), (kCatatan, vs "beli buku")]
    (by decide)

end Cashmate
